import Mathlib

/-!
Shallow embedding of the core simulation logic of the 2D world-interaction
engine (src/app/main.js): status effects and per-tick timer decay, the quest
state machine (start / item spawning / delivery with skill checks), dialogue
option traversal, item granting, obstacle collision resolution, and the
player hp/gold bookkeeping (heal, damage, shop purchase).

Numbers are modelled as exact rationals (JS numbers are used here only for
small arithmetic well inside double precision).  JS `Math.random()` draws are
modelled as explicit oracle streams passed in the environment.  A JS runtime
`TypeError` (property access on `undefined`) is modelled by `Option`/`none`
where it is reachable.
-/

namespace WorldGen

/-- A timed status effect `{name, type, value, time}` (main.js `G.statusEffects`
entries, pushed in `activateAbility` / `onInventoryItemClick`). -/
structure StatusEffect where
  name : String
  type : String
  value : ℚ
  time : ℚ
  deriving Repr, DecidableEq

/-- A transient UI message `{text, time}` (main.js `addMessage`). -/
structure Message where
  text : String
  time : ℚ
  deriving Repr, DecidableEq

/-- A world zone: `{id, name, x, width}`; only the fields the simulation
reads are kept. -/
structure Zone where
  id : String
  x : ℚ
  width : ℚ
  deriving Repr, DecidableEq

/-- A spawned collectible `{itemId, x, y}` (main.js `G.objects` entries). -/
structure WorldObject where
  itemId : String
  x : ℚ
  y : ℚ
  deriving Repr, DecidableEq

/-- A catalog item `{item_id, name, category}` (inventory.json entries). -/
structure Item where
  item_id : String
  name : String
  category : String
  deriving Repr, DecidableEq

/-- An NPC as used by the quest/skill-check logic: `{id, skill, difficulty}`
(main.js `initNPCs`). -/
structure NPC where
  id : String
  skill : String
  difficulty : ℚ
  deriving Repr, DecidableEq

/-- A dialogue option `{choice_text, to_id, grants_item_ids}`.  `to_id` is
`none` when the JSON field is absent (JS `undefined`). -/
structure DialogueOption where
  choice_text : String
  to_id : Option String
  grants_item_ids : List String
  deriving Repr, DecidableEq

/-- A dialogue node `{node_id, speaker, text, grants_item_ids, options}`. -/
structure DialogueNode where
  node_id : String
  speaker : String
  text : String
  grants_item_ids : List String
  options : List DialogueOption
  deriving Repr, DecidableEq

/-- A dialogue graph `{id, nodes}`. -/
structure Dialogue where
  id : String
  nodes : List DialogueNode
  deriving Repr, DecidableEq

/-- A quest step `{goal, location_hint, requires_item_ids}`. -/
structure QuestStep where
  goal : String
  location_hint : String
  requires_item_ids : List String
  deriving Repr, DecidableEq

/-- Runtime quest state (main.js `initQuestsState` entries): status is one of
the strings "not-started" / "in-progress" / "completed". -/
structure QuestState where
  id : String
  title : String
  is_main : Bool
  steps : List QuestStep
  status : String
  currentStep : Nat
  stepAssignments : List String
  deriving Repr, DecidableEq

/-- Quest catalog data `{id, title, is_main, steps}` (quests.json entries). -/
structure QuestData where
  id : String
  title : String
  is_main : Bool
  steps : List QuestStep
  deriving Repr, DecidableEq

/-- A talk session `{npcId, dialogueIndex, currentNode}` (main.js `G.talk`). -/
structure Talk where
  npcId : String
  dialogueIndex : Nat
  currentNode : DialogueNode
  deriving Repr, DecidableEq

/-- An obstacle rectangle `{x, y, width, height}` (main.js `G.obstacles`). -/
structure Obstacle where
  x : ℚ
  y : ℚ
  width : ℚ
  height : ℚ
  deriving Repr, DecidableEq

/-- The mutable slice of the global `G` object that the embedded operations
read and write. -/
structure GState where
  px : ℚ
  py : ℚ
  baseSpeed : ℚ
  speed : ℚ
  hp : ℚ
  maxHp : ℚ
  gold : ℚ
  skills : List (String × ℚ)
  inventory : List String
  abilityCooldown : List (String × ℚ)
  statusEffects : List StatusEffect
  messages : List Message
  questsState : List QuestState
  objects : List WorldObject
  talk : Option Talk
  shopStock : List Item
  deriving Repr, DecidableEq

/-- Read-only environment: catalog data (dialogues, items), world layout
(zones, npcs, screen geometry) and the `Math.random()` oracle streams used by
`spawnItemsForStep` (three draws per spawned object: zone pick, x, y). -/
structure GEnv where
  dialogues : List Dialogue
  items : List Item
  zones : List Zone
  npcs : List NPC
  screenW : ℚ
  screenH : ℚ
  safeBottom : ℚ
  r1 : Nat → ℚ
  r2 : Nat → ℚ
  r3 : Nat → ℚ

/-- main.js `addMessage(text)`: push a message with the default 3s duration. -/
def addMessage (text : String) (st : GState) : GState :=
  { st with messages := st.messages ++ [{ text := text, time := 3 }] }

/-- main.js `getItemName(itemId)`: catalog name, falling back to the id. -/
def getItemName (env : GEnv) (itemId : String) : String :=
  match env.items.find? (fun it => it.item_id == itemId) with
  | some it => it.name
  | none => itemId

/-- The non-movement tail of main.js `update(dt)` (lines 469-483): messages
have their time decremented by dt and are dropped at time ≤ 0, ability
cooldowns are clamped to 0, and the player speed is recomputed from the
active "speed" status effects.  Note that `G.statusEffects` itself is only
read here, never written: the code contains no decay of effect `time`. -/
def updateTimers (dt : ℚ) (st : GState) : GState :=
  { st with
    messages :=
      (st.messages.map (fun m => { m with time := m.time - dt })).filter
        (fun m => decide (0 < m.time)),
    abilityCooldown := st.abilityCooldown.map (fun p => (p.1, max 0 (p.2 - dt))),
    speed := st.baseSpeed *
      (1 + st.statusEffects.foldl
        (fun acc e => if e.type == "speed" then acc + e.value else acc) 0) }

/-- main.js `performSkillCheck`, base part: `G.player.skills[skill] || 0`. -/
def skillBase (skills : List (String × ℚ)) (sk : String) : ℚ :=
  match skills.find? (fun p => p.1 == sk) with
  | some p => p.2
  | none => 0

/-- main.js `performSkillCheck`, bonus part: sum of `value` over active status
effects whose `type` equals the skill name. -/
def effectBonus (effects : List StatusEffect) (sk : String) : ℚ :=
  effects.foldl (fun acc e => if e.type == sk then acc + e.value else acc) 0

/-- main.js `performSkillCheck(skill, difficulty)` with the `Math.random()`
roll made explicit: `roll < (playerSkill + bonus) - difficulty + 0.5`. -/
def performSkillCheck (skills : List (String × ℚ)) (effects : List StatusEffect)
    (sk : String) (difficulty roll : ℚ) : Bool :=
  decide (roll < (skillBase skills sk + effectBonus effects sk) - difficulty + 1/2)

/-- The overlap test of main.js `updateWorld` obstacle loop (line 514):
`p.x + 16 > o.x && p.x - 16 < o.x + o.width && p.y + 16 > o.y && p.y - 16 < o.y + o.height`. -/
def overlapsB (px py : ℚ) (o : Obstacle) : Bool :=
  decide (o.x < px + 16) && decide (px - 16 < o.x + o.width) &&
  decide (o.y < py + 16) && decide (py - 16 < o.y + o.height)

/-- One resolution pass for a single obstacle (main.js `updateWorld` lines
513-534): if the player's 16-half-extent box overlaps the rectangle, push
along the axis with the smaller of the two minimal absolute penetration
depths, to the rectangle's edge plus the half-extent. -/
def resolveObstacle (px py : ℚ) (o : Obstacle) : ℚ × ℚ :=
  if overlapsB px py o then
    let dxLeft := o.x - (px + 16)
    let dxRight := (o.x + o.width) - (px - 16)
    let dyTop := o.y - (py + 16)
    let dyBottom := (o.y + o.height) - (py - 16)
    let absX := min |dxLeft| |dxRight|
    let absY := min |dyTop| |dyBottom|
    if absX < absY then
      if |dxLeft| < |dxRight| then (o.x - 16, py) else (o.x + o.width + 16, py)
    else
      if |dyTop| < |dyBottom| then (px, o.y - 16) else (px, o.y + o.height + 16)
  else (px, py)

/-- main.js `grantItems(itemIds)`: for each id not already in the inventory,
append it, push a "Received ..." message and add 5 gold.  An id already held
is skipped entirely (no re-add, no message, no gold). -/
def grantItems (env : GEnv) (itemIds : List String) (st : GState) : GState :=
  itemIds.foldl
    (fun s id =>
      if s.inventory.contains id then s
      else
        { s with
          inventory := s.inventory ++ [id],
          messages := s.messages ++
            [{ text := "Received " ++ getItemName env id, time := 3 }],
          gold := s.gold + 5 })
    st

/-- JS truthiness of the `to_id` field in `if (option.to_id)`: absent
(`undefined`) and the empty string are falsy. -/
def toIdTruthy : Option String → Bool
  | none => false
  | some s => !(s == "")

/-- The dialogue option click handler built in main.js `drawTalkOverlay`
(lines 1153-1167): grant the option's items; if `to_id` is truthy, look the
target node up in the same dialogue and, when found, move the session there
and grant that node's items — when NOT found, nothing further happens (the
session stays on the current node); if `to_id` is falsy, the talk ends. -/
def selectOptionHandler (env : GEnv) (dialogue : Dialogue) (opt : DialogueOption)
    (st : GState) : GState :=
  let st1 := grantItems env opt.grants_item_ids st
  match opt.to_id with
  | some t =>
    if t == "" then { st1 with talk := none }
    else
      match dialogue.nodes.find? (fun n => n.node_id == t) with
      | some next =>
        grantItems env next.grants_item_ids
          { st1 with talk := st1.talk.map (fun tk => { tk with currentNode := next }) }
      | none => st1
  | none => { st1 with talk := none }

/-- First element of a list satisfying `p`, together with its index — the
shape of the JS `Array.prototype.find` uses where the found object is later
mutated in place (the index records which list cell to write back). -/
def findWithIdx {α : Type} (p : α → Bool) : Nat → List α → Option (Nat × α)
  | _, [] => none
  | i, x :: rest => if p x then some (i, x) else findWithIdx p (i + 1) rest

/-- The per-quest condition of main.js `getDeliverInfoForNPC(npcId)`: the
quest is in progress, the current step's assignee is this NPC, and the
player holds every required item of the current step.  (The inner `none`
branch is unreachable when `stepAssignments` and `steps` have equal length,
as `initQuestsState` guarantees; JS would throw there.) -/
def deliverableTo (inventory : List String) (npcId : String) (qs : QuestState) : Bool :=
  qs.status == "in-progress" &&
    (match qs.stepAssignments[qs.currentStep]? with
     | some a =>
       a == npcId &&
         (match qs.steps[qs.currentStep]? with
          | some step => step.requires_item_ids.all (fun id => inventory.contains id)
          | none => false)
     | none => false)

/-- main.js `spawnItemsForStep` inner check: the item id is obtainable via
some dialogue node's `grants_item_ids`. -/
def grantedByDialogue (dialogues : List Dialogue) (id : String) : Bool :=
  dialogues.any (fun dlg => dlg.nodes.any (fun n => n.grants_item_ids.contains id))

/-- The `toSpawn` list of main.js `spawnItemsForStep`: required ids that are
not dialogue-granted, not already held, and not already present as a world
pickup. -/
def toSpawnIds (env : GEnv) (inventory : List String) (objects : List WorldObject)
    (step : QuestStep) : List String :=
  step.requires_item_ids.filter (fun id =>
    !grantedByDialogue env.dialogues id && !inventory.contains id &&
    !objects.any (fun o => o.itemId == id))

/-- One spawned world object of main.js `spawnItemsForStep`, the three
`Math.random()` draws taken from the environment's oracle streams at the
object's position `k` in the spawn list: a random zone
(`zones[floor(random * (zones.length || 1))]`), then a random position in
it.  (With zero zones JS would index `undefined` and throw on `zone.x`; the
`getD` default stands for that unreachable-in-practice branch.) -/
def spawnObject (env : GEnv) (k : Nat) (itemId : String) : WorldObject :=
  let zoneCount : Nat := if env.zones.length == 0 then 1 else env.zones.length
  let zone := (env.zones[((env.r1 k * (zoneCount : ℚ)).floor).toNat]?).getD
    { id := "", x := 0, width := 0 }
  { itemId := itemId,
    x := zone.x + env.r2 k * zone.width,
    y := 80 + env.r3 k * (env.screenH - env.safeBottom - 120) }

/-- The list of world objects created by one call of main.js
`spawnItemsForStep(qs, stepIndex)`; empty when the step does not exist
(`if (!step) return`). -/
def spawnedObjects (env : GEnv) (inventory : List String) (objects : List WorldObject)
    (qs : QuestState) (stepIndex : Nat) : List WorldObject :=
  match qs.steps[stepIndex]? with
  | none => []
  | some step =>
    (toSpawnIds env inventory objects step).enum.map (fun p => spawnObject env p.1 p.2)

/-- main.js `spawnItemsForStep`: push one object per `toSpawn` entry. -/
def spawnItemsForStep (env : GEnv) (st : GState) (qs : QuestState) (stepIndex : Nat) :
    GState :=
  { st with objects := st.objects ++ spawnedObjects env st.inventory st.objects qs stepIndex }

/-- main.js `startQuest(id)`: find the quest; silently return unless its
status is "not-started"; otherwise set in-progress, reset `currentStep` to
0, push a "Started quest" message and spawn items for step 0. -/
def startQuest (env : GEnv) (st : GState) (id : String) : GState :=
  match findWithIdx (fun q => q.id == id) 0 st.questsState with
  | none => st
  | some (i, qs) =>
    if qs.status != "not-started" then st
    else
      let qs2 := { qs with status := "in-progress", currentStep := 0 }
      let st1 := addMessage ("Started quest: " ++ qs.title)
        { st with questsState := st.questsState.set i qs2 }
      spawnItemsForStep env st1 qs2 0

/-- main.js `healPlayer(amount)`: clamp hp to maxHp and report. -/
def healPlayerG (amount : ℚ) (st : GState) : GState :=
  addMessage ("Healed " ++ toString amount ++ " HP")
    { st with hp := min st.maxHp (st.hp + amount) }

/-- main.js `damagePlayer(amount)`: subtract hp; on hp ≤ 0 faint — reset hp
to maxHp, teleport to the screen centre, deduct 10 gold floored at zero. -/
def damagePlayerG (env : GEnv) (amount : ℚ) (st : GState) : GState :=
  let st1 := { st with hp := st.hp - amount }
  if st1.hp ≤ 0 then
    addMessage "You fainted! Lost some gold."
      { st1 with
        hp := st1.maxHp,
        px := env.screenW / 2,
        py := env.screenH / 2,
        gold := max 0 (st1.gold - 10) }
  else st1

/-- main.js `getItemPrice(item)`: weapon/armor 30, quest 10, otherwise 20. -/
def getItemPrice (item : Item) : ℚ :=
  if item.category == "weapon" || item.category == "armor" then 30
  else if item.category == "quest" then 10
  else 20

/-- main.js `purchaseItem(item)`: requires gold ≥ price; on success debit
gold, append the item id to the inventory (duplicates allowed) and remove
the item from the shop stock; otherwise only report. -/
def purchaseItem (item : Item) (st : GState) : GState :=
  let price := getItemPrice item
  if price ≤ st.gold then
    addMessage ("Bought " ++ item.name)
      { st with
        gold := st.gold - price,
        inventory := st.inventory ++ [item.item_id],
        shopStock := st.shopStock.filter (fun it => !(it.item_id == item.item_id)) }
  else addMessage "Not enough gold" st

/-- main.js `finishQuestStepsOnTalk(npcId)`: deliver the current step of the
first eligible quest.  One skill check with the NPC's skill/difficulty; on
failure a "failed" message and 10 damage, but the step advances either way;
one occurrence of each required item id is spliced out of the inventory;
`currentStep` increments; at `steps.length` the status becomes "completed"
and 50 gold is granted, otherwise 20 gold is granted and items are spawned
for the new current step.  `none` models the JS `TypeError` on `npc.skill`
when the NPC list has no NPC with this id (and the unreachable missing-step
branch). -/
def finishQuestStepsOnTalk (env : GEnv) (roll : ℚ) (st : GState) (npcId : String) :
    Option GState :=
  match findWithIdx (deliverableTo st.inventory npcId) 0 st.questsState with
  | none => some (addMessage "You do not have the required items" st)
  | some (i, qs) =>
    match env.npcs.find? (fun n => n.id == npcId) with
    | none => none
    | some npc =>
      match qs.steps[qs.currentStep]? with
      | none => none
      | some step =>
        let success :=
          performSkillCheck st.skills st.statusEffects npc.skill npc.difficulty roll
        let st1 :=
          if success then addMessage ("Skill check passed (" ++ npc.skill ++ ")") st
          else damagePlayerG env 10
            (addMessage ("Skill check failed (" ++ npc.skill ++ ")") st)
        let st2 := { st1 with
          inventory := step.requires_item_ids.foldl (fun inv id => inv.erase id) st1.inventory }
        let qs2 := { qs with currentStep := qs.currentStep + 1 }
        if qs.steps.length ≤ qs2.currentStep then
          some (addMessage ("Quest completed: " ++ qs.title)
            { st2 with
              questsState := st2.questsState.set i { qs2 with status := "completed" },
              gold := st2.gold + 50 })
        else
          let st3 := addMessage ("Step completed: " ++ step.goal)
            { st2 with questsState := st2.questsState.set i qs2, gold := st2.gold + 20 }
          some (spawnItemsForStep env st3 qs2 qs2.currentStep)

/-- main.js `initQuestsState` step assignment: `G.npcs[(qIndex + i) % npcCount].id`.
With zero NPCs the JS modulus is `NaN`, the indexing yields `undefined` and
`.id` throws; `none` models exactly that (in Lean `k % 0 = k` and indexing
the empty list is `none`). -/
def assignStep (npcs : List NPC) (qIndex i : Nat) : Option String :=
  (npcs[(qIndex + i) % npcs.length]?).map NPC.id

/-- All step assignments of one quest (index `qIndex`). -/
def assignments (npcs : List NPC) (qIndex numSteps : Nat) : Option (List String) :=
  (List.range numSteps).mapM (assignStep npcs qIndex)

/-- main.js `initQuestsState`: build the runtime quest states, each step
assigned round-robin over the NPCs; `none` models the thrown `TypeError`
when the NPC list is empty and some quest has a step. -/
def initQuestsState (npcs : List NPC) (quests : List QuestData) :
    Option (List QuestState) :=
  quests.enum.mapM (fun p =>
    (assignments npcs p.1 p.2.steps.length).map (fun asg =>
      { id := p.2.id, title := p.2.title, is_main := p.2.is_main, steps := p.2.steps,
        status := "not-started", currentStep := 0, stepAssignments := asg }))

/-- The hp/gold safety invariant of C10. -/
def playerInvariant (st : GState) : Prop :=
  0 ≤ st.gold ∧ 0 < st.hp ∧ st.hp ≤ st.maxHp

/-- A concrete environment with empty catalogs and zeroed random streams,
used for concrete evaluations. -/
def envC : GEnv :=
  { dialogues := [], items := [], zones := [{ id := "z1", x := 0, width := 800 }],
    npcs := [], screenW := 800, screenH := 600, safeBottom := 148,
    r1 := fun _ => 0, r2 := fun _ => 0, r3 := fun _ => 0 }

/-- A concrete player/world state mirroring the initial `G` of main.js. -/
def baseState : GState :=
  { px := 0, py := 0, baseSpeed := 120, speed := 120, hp := 100, maxHp := 100,
    gold := 50,
    skills := [("charisma", 1/2), ("strength", 1/2), ("agility", 1/2)],
    inventory := [], abilityCooldown := [], statusEffects := [], messages := [],
    questsState := [], objects := [], talk := none, shopStock := [] }

/-- A concrete active status effect as pushed by `activateAbility` for a
speed ability: `{name, type:'speed', value:0.5, time:10}`. -/
def hasteEffect : StatusEffect :=
  { name := "Haste", type := "speed", value := 1/2, time := 10 }

/-- A dialogue option whose `to_id` names a node that does not exist in its
dialogue. -/
def optBroken : DialogueOption :=
  { choice_text := "Go on", to_id := some "missing", grants_item_ids := [] }

/-- A dialogue node carrying the broken option. -/
def nodeA : DialogueNode :=
  { node_id := "a", speaker := "npc_guide", text := "Hello", grants_item_ids := [],
    options := [optBroken] }

/-- A one-node dialogue whose only option targets a nonexistent node. -/
def dlgBroken : Dialogue :=
  { id := "d1", nodes := [nodeA] }

/-- A state in the middle of a talk session on `nodeA`. -/
def stTalk : GState :=
  { baseState with
    talk := some { npcId := "npc_guide", dialogueIndex := 0, currentNode := nodeA } }

/-- A concrete NPC used for delivery. -/
def npcW : NPC :=
  { id := "npc1", skill := "charisma", difficulty := 2/5 }

/-- A one-step quest requiring a single "key", assigned to `npcW`, shown in
"in-progress" state. -/
def stepW : QuestStep :=
  { goal := "g", location_hint := "h", requires_item_ids := ["key"] }

/-- The in-progress quest state for delivery scenarios. -/
def qsW : QuestState :=
  { id := "q1", title := "T", is_main := true, steps := [stepW],
    status := "in-progress", currentStep := 0, stepAssignments := ["npc1"] }

/-- The same quest not yet started. -/
def qsNS : QuestState :=
  { qsW with status := "not-started" }

/-- The environment with `npcW` present. -/
def envW : GEnv :=
  { envC with npcs := [npcW] }

/-- A state ready to deliver: the key is held and `qsW` is in progress. -/
def stW : GState :=
  { baseState with inventory := ["key"], questsState := [qsW] }

/-- A delivery-ready state whose inventory holds the required key twice
(duplicate inventory entries are reachable through shop purchases, which
push without a duplicate check). -/
def stDupInv : GState :=
  { baseState with inventory := ["key", "key"], questsState := [qsW] }

/-- A state whose only quest is already in progress (for `startQuest`). -/
def stIP : GState :=
  { baseState with questsState := [qsW] }

/-- A state whose only quest is not started. -/
def stNS : GState :=
  { baseState with questsState := [qsNS] }

/-- A quest catalog entry with one requirement-free step. -/
def questDataW : QuestData :=
  { id := "q1"
    title := "T"
    is_main := true
    steps := [{ goal := "g", location_hint := "h", requires_item_ids := [] }] }

/-- The runtime quest state `initQuestsState` builds from `questDataW` with
`npcW` as the only NPC. -/
def questStateW : QuestState :=
  { id := "q1"
    title := "T"
    is_main := true
    steps := [{ goal := "g", location_hint := "h", requires_item_ids := [] }]
    status := "not-started"
    currentStep := 0
    stepAssignments := ["npc1"] }

end WorldGen

namespace WorldGen

/-- C4: the skill check is the pure comparison `roll < base + bonus -
difficulty + 0.5`; it always succeeds at roll = 0 when the expression is
positive, always fails (for any roll ≥ 0, hence any roll just under 1) when
the expression is ≤ 0, and the concrete scenario charisma 0.5 / difficulty
0.4 / roll 0.05 succeeds. -/
theorem performSkillCheck_spec (skills : List (String × ℚ))
    (effects : List StatusEffect) (sk : String) (difficulty roll : ℚ)
    (h0 : 0 ≤ roll) :
    (performSkillCheck skills effects sk difficulty roll = true ↔
      roll < (skillBase skills sk + effectBonus effects sk) - difficulty + 1/2)
    ∧ (roll = 0 →
        0 < (skillBase skills sk + effectBonus effects sk) - difficulty + 1/2 →
        performSkillCheck skills effects sk difficulty roll = true)
    ∧ ((skillBase skills sk + effectBonus effects sk) - difficulty + 1/2 ≤ 0 →
        performSkillCheck skills effects sk difficulty roll = false)
    ∧ performSkillCheck [("charisma", 1/2)] [] "charisma" (2/5) (1/20) = true := by
  refine ⟨?_, ?_, ?_, ?_⟩
  · simp [performSkillCheck]
  · intro hr hpos
    rw [hr]
    simp only [performSkillCheck, decide_eq_true_eq]
    linarith
  · intro hle
    simp only [performSkillCheck, decide_eq_false_iff_not, not_lt]
    linarith
  · norm_num [performSkillCheck, skillBase, effectBonus, List.find?]

/-- Witness for C4 at a concrete roll. -/
theorem performSkillCheck_spec_witness :
    performSkillCheck [("charisma", 1/2)] [] "charisma" (2/5) (1/20) = true :=
  (performSkillCheck_spec [("charisma", 1/2)] [] "charisma" (2/5) (1/20)
    (by norm_num)).2.2.2

/-- C8: after one resolution pass against an obstacle, the player's bounding
box no longer overlaps that obstacle (in exact arithmetic the residual
overlap is zero, hence certainly within floating-point epsilon). -/
theorem resolveObstacle_no_overlap (px py : ℚ) (o : Obstacle) :
    overlapsB (resolveObstacle px py o).1 (resolveObstacle px py o).2 o = false := by
  unfold resolveObstacle
  by_cases h : overlapsB px py o
  · simp only [h, if_true]
    by_cases hx : min |o.x - (px + 16)| |(o.x + o.width) - (px - 16)| <
        min |o.y - (py + 16)| |(o.y + o.height) - (py - 16)|
    · by_cases hl : |o.x - (px + 16)| < |(o.x + o.width) - (px - 16)|
      · simp [hx, hl, overlapsB]
      · simp [hx, hl, overlapsB]
    · by_cases ht : |o.y - (py + 16)| < |(o.y + o.height) - (py - 16)|
      · simp [hx, ht, overlapsB]
      · simp [hx, ht, overlapsB]
  · simp only [Bool.not_eq_true] at h
    simp [h]

/-- C1 (code bug): `update(dt)` never touches `G.statusEffects` — it neither
decrements an effect's remaining `time` by dt nor removes an effect whose
time reaches zero.  Iterating the per-tick timer update any number of times
leaves the active status effect collection exactly as it was; in particular
a concrete effect with 10 seconds remaining is still present, with `time`
still 10, after 200 ticks of dt = 1/20 (10 simulated seconds), contradicting
the claim that every effect with finite time is eventually removed. -/
theorem updateTimers_never_decays_status_effects :
    (∀ (dt : ℚ) (st : GState) (n : ℕ),
      ((updateTimers dt)^[n] st).statusEffects = st.statusEffects)
    ∧ ((updateTimers (1/20))^[200]
        { baseState with statusEffects := [hasteEffect] }).statusEffects
        = [hasteEffect] := by
  have key : ∀ (dt : ℚ) (st : GState) (n : ℕ),
      ((updateTimers dt)^[n] st).statusEffects = st.statusEffects := by
    intro dt st n
    induction n generalizing st with
    | zero => rfl
    | succ k ih =>
      rw [Function.iterate_succ_apply]
      exact ih (updateTimers dt st)
  exact ⟨key, key (1/20) { baseState with statusEffects := [hasteEffect] } 200⟩

/-- Helper: `grantItems` only touches inventory, gold and messages; the talk
session is untouched. -/
theorem grantItems_talk (env : GEnv) (itemIds : List String) (st : GState) :
    (grantItems env itemIds st).talk = st.talk := by
  induction itemIds generalizing st with
  | nil => rfl
  | cons id rest ih =>
    show (grantItems env rest _).talk = st.talk
    by_cases h : st.inventory.contains id
    · simp only [grantItems, List.foldl_cons, h, if_true]
      exact ih st
    · simp only [grantItems, List.foldl_cons, h, if_false]
      exact ih _

/-- C3 counterexample: selecting the concrete option whose `to_id` is
"missing" (no such node in the dialogue) does NOT end the conversation — the
whole state, the talk session included, is returned unchanged, still on the
same node.  The claim that an unresolved target terminates the session is
therefore false. -/
theorem selectOption_unresolved_keeps_session :
    selectOptionHandler envC dlgBroken optBroken stTalk = stTalk ∧
    (selectOptionHandler envC dlgBroken optBroken stTalk).talk ≠ none := by
  constructor
  · rfl
  · intro h
    simp only [selectOptionHandler, optBroken] at h
    revert h
    decide

/-- C3 (amended): an option with a falsy `to_id` (absent, or the empty
string) ends the conversation; an option whose `to_id` does not resolve to a
node of the dialogue leaves the state exactly as it is after granting the
option's items — the session is neither terminated nor moved, and no error
is raised (the handler is total). -/
theorem selectOption_amended (env : GEnv) (dlg : Dialogue) (opt : DialogueOption)
    (st : GState) :
    (opt.to_id = none → (selectOptionHandler env dlg opt st).talk = none)
    ∧ (opt.to_id = some "" → (selectOptionHandler env dlg opt st).talk = none)
    ∧ (∀ t, opt.to_id = some t → t ≠ "" →
        dlg.nodes.find? (fun n => n.node_id == t) = none →
        selectOptionHandler env dlg opt st = grantItems env opt.grants_item_ids st) := by
  refine ⟨?_, ?_, ?_⟩
  · intro h
    simp [selectOptionHandler, h]
  · intro h
    simp [selectOptionHandler, h]
  · intro t hto hne hfind
    have ht : (t == "") = false := by
      simpa using hne
    simp [selectOptionHandler, hto, ht, hfind]

/-- Witness for the amended C3 at concrete inputs: a `to_id`-less option
ends the talk, and the broken option of the concrete dialogue leaves the
state unchanged. -/
theorem selectOption_amended_witness :
    (selectOptionHandler envC dlgBroken
      { choice_text := "Bye", to_id := none, grants_item_ids := [] } stTalk).talk = none
    ∧ selectOptionHandler envC dlgBroken optBroken stTalk =
        grantItems envC optBroken.grants_item_ids stTalk := by
  constructor
  · exact (selectOption_amended envC dlgBroken
      { choice_text := "Bye", to_id := none, grants_item_ids := [] } stTalk).1 rfl
  · exact (selectOption_amended envC dlgBroken optBroken stTalk).2.2 "missing" rfl
      (by decide) (by decide)

/-- C7 counterexample: re-granting an item the player already owns changes
nothing at all — the item is not re-added AND no gold is awarded, so the
claim that "gold is granted every time an item is granted, even for an item
already owned" is false on the code. -/
theorem grantItems_regrant_no_gold :
    grantItems envC ["key"] { baseState with inventory := ["key"] } =
      { baseState with inventory := ["key"] } ∧
    (grantItems envC ["key"] { baseState with inventory := ["key"] }).gold =
      ({ baseState with inventory := ["key"] } : GState).gold := by
  exact ⟨rfl, rfl⟩

/-- C7 (amended): a dialogue grant of an item id the player already owns is
a complete no-op (no inventory change, no gold); the 5-gold reward is paid
exactly when the item is newly added to the inventory. -/
theorem grantItems_amended (env : GEnv) (st : GState) (id : String) :
    (st.inventory.contains id = true → grantItems env [id] st = st)
    ∧ (st.inventory.contains id = false →
        (grantItems env [id] st).inventory = st.inventory ++ [id]
        ∧ (grantItems env [id] st).gold = st.gold + 5) := by
  constructor
  · intro h
    have hm : id ∈ st.inventory := by simpa using h
    simp [grantItems, hm]
  · intro h
    have hm : id ∉ st.inventory := by simpa using h
    simp [grantItems, hm]

/-- Witness for the amended C7: granting a fresh item appends it and pays 5
gold; re-granting an owned item is the identity. -/
theorem grantItems_amended_witness :
    (grantItems envC ["potion"] { baseState with inventory := ["key"] }).inventory
      = ["key", "potion"]
    ∧ grantItems envC ["key"] { baseState with inventory := ["key"] } =
        { baseState with inventory := ["key"] } := by
  constructor
  · exact ((grantItems_amended envC { baseState with inventory := ["key"] }
      "potion").2 (by decide)).1
  · exact (grantItems_amended envC { baseState with inventory := ["key"] }
      "key").1 (by decide)

/-- C9 (code bug): with zero NPCs and a non-empty quest list,
`initQuestsState` evaluates `G.npcs[(qIndex + i) % 0]`, i.e. indexes with
`NaN`, gets `undefined` and throws on `.id` — modelled by `none`.  The same
single quest initialises fine with one NPC present.  The claim that a
zero-NPC content set degrades gracefully (no fatal error) is violated by
the code. -/
theorem initQuestsState_zero_npcs :
    initQuestsState [] [questDataW] = none
    ∧ initQuestsState [npcW] [questDataW] = some [questStateW] := by
  constructor
  · rfl
  · rfl

/-- Helper: branch characterization of `damagePlayerG`. -/
theorem damagePlayerG_eq (env : GEnv) (b : ℚ) (st : GState) :
    damagePlayerG env b st =
      if st.hp - b ≤ 0 then
        { st with
          hp := st.maxHp,
          px := env.screenW / 2,
          py := env.screenH / 2,
          gold := max 0 (st.gold - 10),
          messages := st.messages ++
            [{ text := "You fainted! Lost some gold.", time := 3 }] }
      else { st with hp := st.hp - b } := by
  rfl

/-- Helper: branch characterization of `purchaseItem`. -/
theorem purchaseItem_eq (item : Item) (st : GState) :
    purchaseItem item st =
      if getItemPrice item ≤ st.gold then
        { st with
          gold := st.gold - getItemPrice item,
          inventory := st.inventory ++ [item.item_id],
          shopStock := st.shopStock.filter (fun it => !(it.item_id == item.item_id)),
          messages := st.messages ++ [{ text := "Bought " ++ item.name, time := 3 }] }
      else { st with messages := st.messages ++ [{ text := "Not enough gold", time := 3 }] } := by
  rfl

/-- C10: operations that change hp or gold preserve `gold ≥ 0` and
`0 < hp ≤ maxHp`: healing clamps hp to maxHp; damage that would drop hp to
zero or below resets hp to maxHp, teleports the player to the screen centre
and deducts 10 gold floored at zero; purchasing debits gold exactly when
`gold ≥ price` and leaves it unchanged otherwise. -/
theorem player_state_invariants (env : GEnv) (st : GState) (item : Item) (a b : ℚ)
    (hinv : playerInvariant st) (ha : 0 ≤ a) (hb : 0 ≤ b) :
    playerInvariant (healPlayerG a st)
    ∧ playerInvariant (damagePlayerG env b st)
    ∧ playerInvariant (purchaseItem item st)
    ∧ (healPlayerG a st).hp ≤ st.maxHp
    ∧ (st.hp - b ≤ 0 →
        (damagePlayerG env b st).hp = st.maxHp
        ∧ (damagePlayerG env b st).px = env.screenW / 2
        ∧ (damagePlayerG env b st).py = env.screenH / 2
        ∧ (damagePlayerG env b st).gold = max 0 (st.gold - 10))
    ∧ (getItemPrice item ≤ st.gold →
        (purchaseItem item st).gold = st.gold - getItemPrice item)
    ∧ (st.gold < getItemPrice item → (purchaseItem item st).gold = st.gold) := by
  obtain ⟨hg, hhp, hmax⟩ := hinv
  have hmax0 : 0 < st.maxHp := lt_of_lt_of_le hhp hmax
  refine ⟨⟨hg, ?_, ?_⟩, ?_, ?_, ?_, ?_, ?_, ?_⟩
  · exact lt_min hmax0 (by linarith)
  · exact min_le_left _ _
  · rw [damagePlayerG_eq]
    by_cases h : st.hp - b ≤ 0
    · rw [if_pos h]
      exact ⟨le_max_left 0 _, hmax0, le_rfl⟩
    · rw [if_neg h]
      refine ⟨hg, ?_, ?_⟩
      · show 0 < st.hp - b
        linarith
      · show st.hp - b ≤ st.maxHp
        linarith
  · rw [purchaseItem_eq]
    by_cases h : getItemPrice item ≤ st.gold
    · rw [if_pos h]
      refine ⟨?_, hhp, hmax⟩
      show 0 ≤ st.gold - getItemPrice item
      linarith
    · rw [if_neg h]
      exact ⟨hg, hhp, hmax⟩
  · exact min_le_left _ _
  · intro h
    rw [damagePlayerG_eq, if_pos h]
    exact ⟨rfl, rfl, rfl, rfl⟩
  · intro h
    rw [purchaseItem_eq, if_pos h]
  · intro h
    rw [purchaseItem_eq, if_neg (not_le.mpr h)]

/-- Witness for C10 at the initial player state. -/
theorem player_state_invariants_witness :
    playerInvariant (healPlayerG 25 baseState)
    ∧ playerInvariant (damagePlayerG envC 10 baseState) := by
  have hinv : playerInvariant baseState := by
    refine ⟨?_, ?_, ?_⟩ <;> norm_num [baseState]
  have h := player_state_invariants envC baseState
    { item_id := "sword1", name := "Sword", category := "weapon" } 25 10 hinv
    (by norm_num) (by norm_num)
  exact ⟨h.1, h.2.1⟩

/-- C6 counterexample: starting a quest that is already in progress is a
SILENT no-op — the state is returned unchanged and, starting from an empty
message queue, the message queue is still empty, so no user-facing message
is surfaced, contrary to the claim. -/
theorem startQuest_in_progress_silent :
    startQuest envC stIP "q1" = stIP
    ∧ (startQuest envC stIP "q1").messages = [] := by
  constructor
  · rfl
  · rfl

/-- C6 (amended): `startQuest` from "not-started" sets the quest in
progress, resets `currentStep` to 0, pushes a "Started quest" message and
spawns the items of step 0; from any other status it returns the state
completely unchanged — a silent no-op with no user-facing message. -/
theorem startQuest_amended (env : GEnv) (st : GState) (id : String) (i : Nat)
    (qs : QuestState)
    (hfind : findWithIdx (fun q => q.id == id) 0 st.questsState = some (i, qs)) :
    (qs.status ≠ "not-started" → startQuest env st id = st)
    ∧ (qs.status = "not-started" →
        (startQuest env st id).questsState =
          st.questsState.set i { qs with status := "in-progress", currentStep := 0 }
        ∧ (startQuest env st id).objects =
            st.objects ++ spawnedObjects env st.inventory st.objects
              { qs with status := "in-progress", currentStep := 0 } 0
        ∧ (startQuest env st id).messages =
            st.messages ++ [{ text := "Started quest: " ++ qs.title, time := 3 }]) := by
  constructor
  · intro h
    have hb : (qs.status != "not-started") = true := bne_iff_ne.mpr h
    simp [startQuest, hfind, hb]
  · intro h
    have hb : (qs.status != "not-started") = false := by
      simp [bne, h]
    simp [startQuest, hfind, hb, spawnItemsForStep, addMessage]

/-- Witness for the amended C6: a completed quest cannot be restarted (the
state is untouched), and a not-started quest transitions to in-progress at
step 0. -/
theorem startQuest_amended_witness :
    startQuest envC { baseState with questsState := [{ qsW with status := "completed" }] }
        "q1"
      = { baseState with questsState := [{ qsW with status := "completed" }] }
    ∧ (startQuest envC stNS "q1").questsState =
        [{ qsNS with status := "in-progress", currentStep := 0 }] := by
  constructor
  · exact (startQuest_amended envC
      { baseState with questsState := [{ qsW with status := "completed" }] } "q1" 0
      { qsW with status := "completed" } rfl).1 (by decide)
  · have h := ((startQuest_amended envC stNS "q1" 0 qsNS rfl).2 rfl).1
    rw [h]
    rfl

/-- Helper: folding `List.erase` never adds elements. -/
theorem mem_foldl_erase {a : String} :
    ∀ (reqs l : List String),
      a ∈ reqs.foldl (fun acc x => acc.erase x) l → a ∈ l := by
  intro reqs
  induction reqs with
  | nil =>
    intro l h
    simpa using h
  | cons x rest ih =>
    intro l h
    simp only [List.foldl_cons] at h
    exact List.mem_of_mem_erase (ih (l.erase x) h)

/-- Helper: for a duplicate-free inventory, folding `List.erase` over the
required ids removes every one of them. -/
theorem not_mem_foldl_erase :
    ∀ (reqs l : List String), l.Nodup →
      ∀ a ∈ reqs, a ∉ reqs.foldl (fun acc x => acc.erase x) l := by
  intro reqs
  induction reqs with
  | nil =>
    intro l _ a ha
    simp at ha
  | cons x rest ih =>
    intro l hl a ha
    simp only [List.foldl_cons]
    rcases List.mem_cons.mp ha with h | h
    · subst h
      intro hmem
      have hx : a ∈ l.erase a := mem_foldl_erase rest (l.erase a) hmem
      rcases (List.Nodup.mem_erase_iff hl).mp hx with ⟨hne, -⟩
      exact hne rfl
    · exact ih (l.erase x) (hl.erase x) a h

/-- C2 (amended): delivering to the current step's assignee while holding
all required items performs exactly one skill check with the NPC's skill and
difficulty (the single `roll` decides the outcome through
`performSkillCheck`); ONE OCCURRENCE of each required item id is spliced out
of the inventory regardless of the outcome — unconditionally the new
inventory is the old one with one occurrence of each required id erased, so
every required id is gone exactly when the inventory holds no duplicates
(a duplicated inventory keeps its extra copies, see the counterexample); on
a failed check the player takes the fixed 10 damage (with the faint rule of
`damagePlayer`) but the step still advances; `currentStep` increments by
one; when it reaches `steps.length` (the code tests `≥`, equivalent to `=`
here since the current step exists) the status becomes "completed" and 50
gold is granted, otherwise 20 gold is granted and item spawning runs for the
new current step. -/
theorem finishQuest_deliver_spec (env : GEnv) (roll : ℚ) (st : GState) (npcId : String)
    (i : Nat) (qs : QuestState) (npc : NPC) (step : QuestStep)
    (hfind : findWithIdx (deliverableTo st.inventory npcId) 0 st.questsState = some (i, qs))
    (hnpc : env.npcs.find? (fun n => n.id == npcId) = some npc)
    (hstep : qs.steps[qs.currentStep]? = some step) :
    ∃ st', finishQuestStepsOnTalk env roll st npcId = some st'
      ∧ st'.questsState = st.questsState.set i
          { qs with
            currentStep := qs.currentStep + 1,
            status :=
              if qs.steps.length ≤ qs.currentStep + 1 then "completed" else qs.status }
      ∧ st'.inventory =
          step.requires_item_ids.foldl (fun inv id => inv.erase id) st.inventory
      ∧ (st.inventory.Nodup → ∀ id ∈ step.requires_item_ids, id ∉ st'.inventory)
      ∧ (performSkillCheck st.skills st.statusEffects npc.skill npc.difficulty roll = true →
          st'.hp = st.hp
          ∧ st'.gold = st.gold +
              (if qs.steps.length ≤ qs.currentStep + 1 then 50 else 20))
      ∧ (performSkillCheck st.skills st.statusEffects npc.skill npc.difficulty roll = false →
          st'.hp = (if st.hp - 10 ≤ 0 then st.maxHp else st.hp - 10)
          ∧ st'.gold = (if st.hp - 10 ≤ 0 then max 0 (st.gold - 10) else st.gold) +
              (if qs.steps.length ≤ qs.currentStep + 1 then 50 else 20))
      ∧ (qs.steps.length ≤ qs.currentStep + 1 → st'.objects = st.objects)
      ∧ (qs.currentStep + 1 < qs.steps.length →
          st'.objects = st.objects ++ spawnedObjects env
            (step.requires_item_ids.foldl (fun inv id => inv.erase id) st.inventory)
            st.objects { qs with currentStep := qs.currentStep + 1 }
            (qs.currentStep + 1)) := by
  simp only [finishQuestStepsOnTalk, hfind, hnpc, hstep, addMessage, damagePlayerG_eq]
  by_cases hs : performSkillCheck st.skills st.statusEffects npc.skill npc.difficulty roll = true
  · rcases le_or_lt qs.steps.length (qs.currentStep + 1) with hlen | hlen
    · have hlen2 : ¬ qs.currentStep + 1 < qs.steps.length := not_lt.mpr hlen
      simp only [hs, hlen, if_pos hlen, if_true, reduceIte]
      refine ⟨_, rfl, rfl, rfl,
        fun hnd id hid => not_mem_foldl_erase step.requires_item_ids st.inventory hnd id hid,
        ?_, ?_, ?_, ?_⟩ <;>
        intro h <;>
        first
          | exact ⟨rfl, rfl⟩
          | exact absurd h (by decide)
          | exact h.elim
          | exact absurd h hlen2
          | rfl
    · have hlen2 : ¬ qs.steps.length ≤ qs.currentStep + 1 := not_le.mpr hlen
      simp only [hs, hlen, hlen2, if_neg hlen2, if_true, reduceIte]
      refine ⟨_, rfl, rfl, rfl,
        fun hnd id hid => not_mem_foldl_erase step.requires_item_ids st.inventory hnd id hid,
        ?_, ?_, ?_, ?_⟩ <;>
        intro h <;>
        first
          | exact ⟨rfl, rfl⟩
          | exact absurd h (by decide)
          | exact h.elim
          | rfl
  · have hs2 : performSkillCheck st.skills st.statusEffects npc.skill npc.difficulty roll
        = false := (Bool.not_eq_true _).mp hs
    by_cases hd : st.hp - 10 ≤ 0
    · rcases le_or_lt qs.steps.length (qs.currentStep + 1) with hlen | hlen
      · have hlen2 : ¬ qs.currentStep + 1 < qs.steps.length := not_lt.mpr hlen
        simp only [hs2, hlen, if_pos hlen, if_pos hd, Bool.false_eq_true, if_false, reduceIte]
        refine ⟨_, rfl, rfl, rfl,
        fun hnd id hid => not_mem_foldl_erase step.requires_item_ids st.inventory hnd id hid,
        ?_, ?_, ?_, ?_⟩ <;>
          intro h <;>
          first
            | exact ⟨rfl, rfl⟩
            | exact absurd h (by decide)
            | exact h.elim
            | exact absurd h hlen2
            | rfl
      · have hlen2 : ¬ qs.steps.length ≤ qs.currentStep + 1 := not_le.mpr hlen
        simp only [hs2, hlen, hlen2, if_neg hlen2, if_pos hd, Bool.false_eq_true, if_false,
          reduceIte]
        refine ⟨_, rfl, rfl, rfl,
        fun hnd id hid => not_mem_foldl_erase step.requires_item_ids st.inventory hnd id hid,
        ?_, ?_, ?_, ?_⟩ <;>
          intro h <;>
          first
            | exact ⟨rfl, rfl⟩
            | exact absurd h (by decide)
            | exact h.elim
            | rfl
    · rcases le_or_lt qs.steps.length (qs.currentStep + 1) with hlen | hlen
      · have hlen2 : ¬ qs.currentStep + 1 < qs.steps.length := not_lt.mpr hlen
        simp only [hs2, hlen, if_pos hlen, if_neg hd, Bool.false_eq_true, if_false, reduceIte]
        refine ⟨_, rfl, rfl, rfl,
        fun hnd id hid => not_mem_foldl_erase step.requires_item_ids st.inventory hnd id hid,
        ?_, ?_, ?_, ?_⟩ <;>
          intro h <;>
          first
            | exact ⟨rfl, rfl⟩
            | exact absurd h (by decide)
            | exact h.elim
            | exact absurd h hlen2
            | rfl
      · have hlen2 : ¬ qs.steps.length ≤ qs.currentStep + 1 := not_le.mpr hlen
        simp only [hs2, hlen, hlen2, if_neg hlen2, if_neg hd, Bool.false_eq_true, if_false,
          reduceIte]
        refine ⟨_, rfl, rfl, rfl,
        fun hnd id hid => not_mem_foldl_erase step.requires_item_ids st.inventory hnd id hid,
        ?_, ?_, ?_, ?_⟩ <;>
          intro h <;>
          first
            | exact ⟨rfl, rfl⟩
            | exact absurd h (by decide)
            | exact h.elim
            | rfl

/-- Witness for the amended C2: in the concrete one-step delivery scenario
with a duplicate-free inventory the call succeeds and the required key
leaves the inventory. -/
theorem finishQuest_deliver_spec_witness :
    ∃ st', finishQuestStepsOnTalk envW (1/20) stW "npc1" = some st'
      ∧ st'.inventory = []
      ∧ "key" ∉ st'.inventory := by
  obtain ⟨st', hsome, hqs, hinv, hnot, hrest⟩ :=
    finishQuest_deliver_spec envW (1/20) stW "npc1" 0 qsW npcW stepW rfl rfl rfl
  have hempty : st'.inventory = [] := by
    rw [hinv]
    rfl
  exact ⟨st', hsome, hempty, hnot (by decide) "key" (by decide)⟩

/-- C2 counterexample: the player holds the required "key" twice; delivering
the step requiring one "key" splices out only the first occurrence
(main.js uses `indexOf`/`splice` once per required id), so "key" is still in
the inventory afterwards — refuting the claim that every required item id of
the step is removed from the inventory. -/
theorem finishQuest_dup_inventory_keeps_key :
    (finishQuestStepsOnTalk envW (1/20) stDupInv "npc1").map GState.inventory
      = some ["key"] := by
  have hfind : findWithIdx (deliverableTo stDupInv.inventory "npc1") 0
      stDupInv.questsState = some (0, qsW) := rfl
  have hnpc : envW.npcs.find? (fun n => n.id == "npc1") = some npcW := rfl
  have hstep : qsW.steps[qsW.currentStep]? = some stepW := rfl
  have hsucc : performSkillCheck stDupInv.skills stDupInv.statusEffects
      npcW.skill npcW.difficulty (1/20) = true := by
    norm_num [performSkillCheck, skillBase, effectBonus, stDupInv, baseState, npcW,
      List.find?]
  have hlen : qsW.steps.length ≤ qsW.currentStep + 1 := by decide
  simp only [finishQuestStepsOnTalk, hfind, hnpc, hstep, hsucc, if_pos hlen, if_true,
    addMessage, Option.map_some', reduceIte]
  rfl

end WorldGen
